import Mathlib

set_option maxHeartbeats 1000000

/-!
Verification development for the ship-delay prediction service (`app.py`)
and its weather cache.  The HTTP handlers `get_weather`, `predict` and
`get_weather_cache_stats` are embedded from `src/app.py`; the `weather_cache`
module is not part of the sources, so its operations (coordinate quantizer,
TTL store, cache manager, stats) are modelled from the design spec.
-/

/-- Namespaces of the weather cache: current conditions vs forecast. -/
inductive Ns where
  | current
  | forecast
deriving DecidableEq, Repr

/-- Modelled from the spec: a cache entry pairs an opaque value with an
absolute expiry timestamp (`expires_at`). -/
structure CacheEntry (V : Type) where
  value : V
  expiresAt : ℚ
deriving DecidableEq, Repr

/-- A cache store for one namespace: an association list from quantized
coordinate keys to entries. -/
abbrev Store (V : Type) := List ((ℤ × ℤ) × CacheEntry V)

/-- Linear search for the entry stored under a key. -/
def findEntry {V : Type} (k : ℤ × ℤ) : Store V → Option (CacheEntry V)
  | [] => none
  | (k2, e) :: rest => if k2 = k then some e else findEntry k rest

/-- Remove every entry stored under a key. -/
def removeKey {V : Type} (k : ℤ × ℤ) : Store V → Store V
  | [] => []
  | (k2, e) :: rest => if k2 = k then removeKey k rest else (k2, e) :: removeKey k rest

/-- Modelled from the spec: `get(key)` with lazy expiration — an entry is
returned only when `now < expires_at`; an expired entry found by the lookup
is discarded first and absent is returned. -/
def Store.get {V : Type} (s : Store V) (k : ℤ × ℤ) (now : ℚ) : Option V × Store V :=
  match findEntry k s with
  | none => (none, s)
  | some e => if now < e.expiresAt then (some e.value, s) else (none, removeKey k s)

/-- Modelled from the spec: `put(key, value, ttl)` computes
`expires_at = now + ttl` and unconditionally overwrites any existing entry;
a non-positive TTL is rejected with a configuration error. -/
def Store.put {V : Type} (s : Store V) (k : ℤ × ℤ) (v : V) (ttl now : ℚ) :
    Except Unit (Store V) :=
  if 0 < ttl then .ok ((k, ⟨v, now + ttl⟩) :: removeKey k s) else .error ()

/-- Modelled from the spec: round-half-away-from-zero to an integer. -/
def roundHalfAwayFromZero (x : ℚ) : ℤ :=
  if 0 ≤ x then ⌊x + 1/2⌋ else -⌊-x + 1/2⌋

/-- Modelled from the spec: the coordinate quantizer rounds each coordinate
to `COORD_PRECISION` decimal digits (represented as scaled integers)
using round-half-away-from-zero, yielding the cache key. -/
def quantizeKey (p : ℕ) (lat lon : ℚ) : ℤ × ℤ :=
  (roundHalfAwayFromZero (lat * 10 ^ p), roundHalfAwayFromZero (lon * 10 ^ p))

/-- Modelled from the spec: the four configuration constants of the
`weather_cache` module, read at construction and immutable thereafter. -/
structure CacheConfig where
  CURRENT_WEATHER_TTL : ℚ
  FORECAST_WEATHER_TTL : ℚ
  COORD_PRECISION : ℕ
  CLEANUP_INTERVAL : ℚ
deriving DecidableEq, Repr

/-- Modelled from the spec: per-namespace hit/miss/eviction counters. -/
structure NsStats where
  hits : ℕ
  misses : ℕ
  evictions : ℕ
deriving DecidableEq, Repr

/-- Record one cache hit. -/
def recordHit (s : NsStats) : NsStats := { s with hits := s.hits + 1 }

/-- Record one cache miss. -/
def recordMiss (s : NsStats) : NsStats := { s with misses := s.misses + 1 }

/-- Modelled from the spec: the cache manager owns two independent stores
(current-weather and forecast-weather), each with its own counters. -/
structure CacheState (V : Type) where
  currentStore : Store V
  forecastStore : Store V
  currentStats : NsStats
  forecastStats : NsStats
deriving DecidableEq, Repr

/-- Modelled from the spec: `get_forecast_weather` quantizes the
coordinates, probes the forecast store and records a hit or miss. -/
def CacheManager.get_forecast_weather {V : Type} (cfg : CacheConfig) (st : CacheState V)
    (lat lon now : ℚ) : Option V × CacheState V :=
  match Store.get st.forecastStore (quantizeKey cfg.COORD_PRECISION lat lon) now with
  | (some v, s2) =>
      (some v, { st with forecastStore := s2, forecastStats := recordHit st.forecastStats })
  | (none, s2) =>
      (none, { st with forecastStore := s2, forecastStats := recordMiss st.forecastStats })

/-- Modelled from the spec: `get_current_weather` quantizes the
coordinates, probes the current-weather store and records a hit or miss. -/
def CacheManager.get_current_weather {V : Type} (cfg : CacheConfig) (st : CacheState V)
    (lat lon now : ℚ) : Option V × CacheState V :=
  match Store.get st.currentStore (quantizeKey cfg.COORD_PRECISION lat lon) now with
  | (some v, s2) =>
      (some v, { st with currentStore := s2, currentStats := recordHit st.currentStats })
  | (none, s2) =>
      (none, { st with currentStore := s2, currentStats := recordMiss st.currentStats })

/-- Modelled from the spec: `cache_forecast_weather` quantizes the
coordinates and puts the document with the forecast namespace TTL. -/
def CacheManager.cache_forecast_weather {V : Type} (cfg : CacheConfig) (st : CacheState V)
    (lat lon : ℚ) (v : V) (now : ℚ) : Except Unit (CacheState V) :=
  match Store.put st.forecastStore (quantizeKey cfg.COORD_PRECISION lat lon) v
      cfg.FORECAST_WEATHER_TTL now with
  | .ok s2 => .ok { st with forecastStore := s2 }
  | .error e => .error e

/-- Modelled from the spec: `cache_current_weather` quantizes the
coordinates and puts the document with the current namespace TTL. -/
def CacheManager.cache_current_weather {V : Type} (cfg : CacheConfig) (st : CacheState V)
    (lat lon : ℚ) (v : V) (now : ℚ) : Except Unit (CacheState V) :=
  match Store.put st.currentStore (quantizeKey cfg.COORD_PRECISION lat lon) v
      cfg.CURRENT_WEATHER_TTL now with
  | .ok s2 => .ok { st with currentStore := s2 }
  | .error e => .error e

/-- The configured TTL of a namespace. -/
def nsTTL : Ns → CacheConfig → ℚ
  | .current, c => c.CURRENT_WEATHER_TTL
  | .forecast, c => c.FORECAST_WEATHER_TTL

/-- Namespace-indexed probe, dispatching to the two manager getters. -/
def probeNs {V : Type} : Ns → CacheConfig → CacheState V → ℚ → ℚ → ℚ → Option V × CacheState V
  | .forecast => CacheManager.get_forecast_weather
  | .current => CacheManager.get_current_weather

/-- Namespace-indexed write, dispatching to the two manager setters. -/
def cacheNs {V : Type} : Ns → CacheConfig → CacheState V → ℚ → ℚ → V → ℚ → Except Unit (CacheState V)
  | .forecast => CacheManager.cache_forecast_weather
  | .current => CacheManager.cache_current_weather

/-- The store belonging to a namespace. -/
def nsStoreOf {V : Type} : Ns → CacheState V → Store V
  | .current, st => st.currentStore
  | .forecast, st => st.forecastStore

/-- The counters belonging to a namespace. -/
def nsStatsOf {V : Type} : Ns → CacheState V → NsStats
  | .current, st => st.currentStats
  | .forecast, st => st.forecastStats

/-- The opposite namespace. -/
def otherNs : Ns → Ns
  | .current => .forecast
  | .forecast => .current

/-- Modelled from the spec: the aggregated stats snapshot, with
`hit_rate = hits / (hits + misses)` and 0 when no lookups have occurred. -/
structure StatsSnapshot where
  hits : ℕ
  misses : ℕ
  evictions : ℕ
  size : ℕ
  hit_rate : ℚ
deriving DecidableEq, Repr

/-- Modelled from the spec: `get_stats` aggregates the counters and live
sizes of both namespaces. -/
def CacheManager.get_stats {V : Type} (st : CacheState V) : StatsSnapshot :=
  let h := st.currentStats.hits + st.forecastStats.hits
  let m := st.currentStats.misses + st.forecastStats.misses
  { hits := h
    misses := m
    evictions := st.currentStats.evictions + st.forecastStats.evictions
    size := st.currentStore.length + st.forecastStore.length
    hit_rate := if h + m = 0 then 0 else (h : ℚ) / ((h : ℚ) + (m : ℚ)) }

/-- A weather document: an opaque dictionary, embedded as an association
list of string fields. -/
abbrev Doc := List (String × String)

/-- Python-style dict assignment `d[k] = v`: overwrite the value in place
when the key exists, otherwise append the pair. -/
def setField (d : Doc) (k v : String) : Doc :=
  if (d.map Prod.fst).contains k then
    d.map (fun p => if p.1 = k then (k, v) else p)
  else d ++ [(k, v)]

/-- Numeric value of a decimal digit character. -/
def digitVal (c : Char) : ℕ := c.toNat - 48

/-- Split a leading run of decimal digits off a character list. -/
def takeDigits : List Char → List ℕ × List Char
  | [] => ([], [])
  | c :: cs =>
    if c.isDigit then
      let p := takeDigits cs
      (digitVal c :: p.1, p.2)
    else ([], c :: cs)

/-- Value of a digit list read in base 10. -/
def digitsToNat (ds : List ℕ) : ℕ := ds.foldl (fun a d => 10 * a + d) 0

/-- Model of Python `float()` on decimal literals: optional surrounding
whitespace, optional sign, digits with an optional fractional part and an
optional exponent; anything else fails with a `ValueError` (`none`). -/
def parseFloat (s : String) : Option ℚ :=
  let cs0 := s.toList.dropWhile Char.isWhitespace
  let sp : ℚ × List Char :=
    match cs0 with
    | '-' :: r => (-1, r)
    | '+' :: r => (1, r)
    | r => (1, r)
  let ip := takeDigits sp.2
  let fpp : List ℕ × List Char :=
    match ip.2 with
    | '.' :: r => takeDigits r
    | r => ([], r)
  if ip.1.isEmpty && fpp.1.isEmpty then none
  else
    let mant : ℚ := sp.1 * ((digitsToNat ip.1 : ℚ) + (digitsToNat fpp.1 : ℚ) / (10 : ℚ) ^ fpp.1.length)
    match fpp.2 with
    | [] => some mant
    | e :: r =>
      if e = 'e' ∨ e = 'E' then
        let es : ℤ × List Char :=
          match r with
          | '-' :: r2 => (-1, r2)
          | '+' :: r2 => (1, r2)
          | r2 => (1, r2)
        let ed := takeDigits es.2
        if ed.1.isEmpty ∨ ¬ (ed.2.all Char.isWhitespace) then none
        else some (mant * (10 : ℚ) ^ (es.1 * (digitsToNat ed.1 : ℤ)))
      else
        if (e :: r).all Char.isWhitespace then some mant else none

/-- Truth of the `forecast` query parameter: lower-cased, defaulting to
`"true"` when absent, and compared against the accepted spellings. -/
def isForecast (fp : Option String) : Bool :=
  ["true", "t", "yes", "y", "1"].contains ((fp.getD "true").toLower)

/-- The namespace selected by the `forecast` query parameter. -/
def nsOf (fp : Option String) : Ns :=
  if isForecast fp then .forecast else .current

/-- The `cache_status` label reported on a cache hit in a namespace. -/
def hitLabel : Ns → String
  | .forecast => "hit_forecast"
  | .current => "hit_current"

/-- Observable cache / network events of one `/weather` request. -/
inductive WEvent where
  | probe (ns : Ns)
  | fetchCall
  | storeNs (ns : Ns)
deriving DecidableEq, Repr

/-- Body of a `/weather` response: an error message or a document. -/
inductive WBody where
  | err (msg : String)
  | doc (d : Doc)
deriving DecidableEq, Repr

/-- Outcome of one `/weather` request: HTTP status, body, resulting cache
state and the trace of cache / network events. -/
structure WOut where
  status : ℕ
  body : WBody
  state : CacheState Doc
  events : List WEvent
deriving DecidableEq, Repr

/-- The cache-miss tail of `get_weather`: fetch from the provider, mark the
result `cache_status = "miss"`, store it in the probed namespace and return
it; a provider failure yields 500, as does an exception while caching. -/
def missPath (cfg : CacheConfig) (fetch : Ns → Option Doc) (ns : Ns)
    (la lo : ℚ) (st1 : CacheState Doc) (now : ℚ) : WOut :=
  match fetch ns with
  | none => ⟨500, .err "Error fetching weather data", st1, [.probe ns, .fetchCall]⟩
  | some d0 =>
    let result := setField d0 "cache_status" "miss"
    match (match ns with
           | .forecast => CacheManager.cache_forecast_weather cfg st1 la lo result now
           | .current => CacheManager.cache_current_weather cfg st1 la lo result now) with
    | .ok st2 => ⟨200, .doc result, st2, [.probe ns, .fetchCall, .storeNs ns]⟩
    | .error _ => ⟨500, .err "An unexpected error occurred", st1, [.probe ns, .fetchCall]⟩

/-- The `/weather` endpoint handler of `app.py`: parameter presence check,
float conversion, range validation, cache probe of the namespace selected
by the `forecast` parameter (a cached document is returned only when
truthy, i.e. non-empty), and the fetch-and-store miss path. -/
def get_weather (cfg : CacheConfig) (fetch : Ns → Option Doc)
    (lat lon fp : Option String) (st : CacheState Doc) (now : ℚ) : WOut :=
  if lat = none ∨ lat = some "" ∨ lon = none ∨ lon = some "" then
    ⟨400, .err "Missing required parameters: lat and lon must be provided", st, []⟩
  else
    match parseFloat (lat.getD ""), parseFloat (lon.getD "") with
    | some la, some lo =>
      if ¬(-90 ≤ la ∧ la ≤ 90) ∨ ¬(-180 ≤ lo ∧ lo ≤ 180) then
        ⟨400, .err "Invalid coordinates: latitude must be between -90 and 90, longitude between -180 and 180", st, []⟩
      else
        if isForecast fp then
          match CacheManager.get_forecast_weather cfg st la lo now with
          | (some d, st1) =>
            if d.isEmpty then missPath cfg fetch .forecast la lo st1 now
            else ⟨200, .doc (setField d "cache_status" "hit_forecast"), st1, [.probe .forecast]⟩
          | (none, st1) => missPath cfg fetch .forecast la lo st1 now
        else
          match CacheManager.get_current_weather cfg st la lo now with
          | (some d, st1) =>
            if d.isEmpty then missPath cfg fetch .current la lo st1 now
            else ⟨200, .doc (setField d "cache_status" "hit_current"), st1, [.probe .current]⟩
          | (none, st1) => missPath cfg fetch .current la lo st1 now
    | _, _ => ⟨400, .err "Invalid coordinates: lat and lon must be numeric values", st, []⟩

/-- Decidable test that both coordinate strings parse and are in range. -/
def coordsValid (slat slon : String) : Bool :=
  match parseFloat slat, parseFloat slon with
  | some x, some y => decide ((-90 ≤ x ∧ x ≤ 90) ∧ (-180 ≤ y ∧ y ≤ 180))
  | _, _ => false

/-- Body of the `/weather/cache/stats` response: the stats snapshot under
`cache_stats` plus the four configuration constants under `config`. -/
structure StatsBody where
  cache_stats : StatsSnapshot
  config : List (String × ℚ)
deriving DecidableEq, Repr

/-- The `/weather/cache/stats` endpoint handler of `app.py`. -/
def get_weather_cache_stats (cfg : CacheConfig) (st : CacheState Doc) : ℕ × StatsBody :=
  (200,
   { cache_stats := CacheManager.get_stats st
     config :=
       [("current_weather_ttl_seconds", cfg.CURRENT_WEATHER_TTL),
        ("forecast_weather_ttl_seconds", cfg.FORECAST_WEATHER_TTL),
        ("coordinate_precision", (cfg.COORD_PRECISION : ℚ)),
        ("cleanup_interval_seconds", cfg.CLEANUP_INTERVAL)] })

/-- The required JSON fields of a `/predict` request. -/
def required_fields : List String :=
  ["vessel_type", "teu", "arrival_timestamp_str", "hourly_weather_forecast", "model_name"]

/-- Python `repr` of a list of strings, as interpolated into error texts. -/
def pyListRepr (l : List String) : String :=
  "[" ++ String.intercalate ", " (l.map (fun s => "\x27" ++ s ++ "\x27")) ++ "]"

/-- Failure of the model-specific preparation / prediction part of
`/predict`: a client error (HTTP 400) or an internal error (HTTP 500). -/
inductive PredictErr where
  | badRequest (msg : String)
  | internal (msg : String)
deriving DecidableEq, Repr

/-- Environment of the `/predict` handler: the names held by the sklearn
and Keras model dictionaries, and the model-specific feature preparation
and prediction step, which yields the raw model output or an error. -/
structure PredictEnv where
  models : List String
  keras_models : List String
  runModel : String → Except PredictErr ℚ

/-- Observable work events of one `/predict` request. -/
inductive PEvent where
  | featurePrep
  | modelRun
deriving DecidableEq, Repr

/-- Body of a `/predict` response: an error message, or the model used
together with `predicted_total_weather_delay_hrs`. -/
inductive PBody where
  | err (msg : String)
  | ok (model_used : String) (predicted_total_weather_delay_hrs : ℚ)
deriving DecidableEq, Repr

/-- Outcome of one `/predict` request. -/
structure PredictOut where
  status : ℕ
  body : PBody
  events : List PEvent
deriving DecidableEq, Repr

/-- Python banker's rounding (`round`) of a rational to an integer:
round-half-to-even. -/
def pyRoundHalfEven (x : ℚ) : ℤ :=
  if x - ⌊x⌋ < 1/2 then ⌊x⌋
  else if 1/2 < x - ⌊x⌋ then ⌊x⌋ + 1
  else if ⌊x⌋ % 2 = 0 then ⌊x⌋ else ⌊x⌋ + 1

/-- Python `round(x, n)` to `n` decimal digits. -/
def pyRound (x : ℚ) (n : ℕ) : ℚ := (pyRoundHalfEven (x * 10 ^ n) : ℚ) / 10 ^ n

/-- The `/predict` endpoint handler of `app.py`: JSON check, required-field
check, model lookup (404 when the name is in neither dictionary), then the
model-specific preparation and prediction; a raw prediction is clamped
through `max 0` and rounded to 4 digits in the 200 response. -/
def predict (env : PredictEnv) (isJson : Bool) (fields : List String)
    (model_name : String) : PredictOut :=
  if !isJson then ⟨400, .err "Request must be JSON", []⟩
  else if !(required_fields.all (fields.contains ·)) then
    ⟨400, .err ("Missing required fields. Required: " ++ pyListRepr required_fields), []⟩
  else
    let is_keras_model := env.keras_models.contains model_name
    let is_sklearn_model := env.models.contains model_name
    if !is_keras_model && !is_sklearn_model then
      ⟨404, .err ("Model \x27" ++ model_name ++ "\x27 not found. Available: "
                  ++ pyListRepr (env.models ++ env.keras_models)), []⟩
    else
      match env.runModel model_name with
      | .error (.badRequest m) => ⟨400, .err m, [.featurePrep]⟩
      | .error (.internal m) => ⟨500, .err m, [.featurePrep]⟩
      | .ok raw => ⟨200, .ok model_name (pyRound (max 0 raw) 4), [.featurePrep, .modelRun]⟩

/-- The empty string is not a parseable float. -/
theorem parseFloat_empty : parseFloat "" = none := by with_unfolding_all rfl

/-- A put with a positive TTL succeeds and prepends the fresh entry after
removing any previous entry for the key. -/
theorem store_put_pos {V : Type} (s : Store V) (k : ℤ × ℤ) (v : V) (ttl now : ℚ)
    (h : 0 < ttl) :
    Store.put s k v ttl now = .ok ((k, ⟨v, now + ttl⟩) :: removeKey k s) := by
  unfold Store.put
  rw [if_pos h]

/-- Reading the key stored at the head of an unexpired store returns it. -/
theorem store_get_cons_self {V : Type} (k : ℤ × ℤ) (e : CacheEntry V) (rest : Store V)
    (now : ℚ) (h : now < e.expiresAt) :
    Store.get ((k, e) :: rest) k now = (some e.value, (k, e) :: rest) := by
  unfold Store.get findEntry
  rw [if_pos rfl]
  simp [h]

/-- A successful namespace write is immediately readable through the
matching namespace probe. -/
theorem probe_after_cache {V : Type} (ns : Ns) (cfg : CacheConfig) (st : CacheState V)
    (la lo : ℚ) (v : V) (now : ℚ) (st2 : CacheState V)
    (httl : 0 < nsTTL ns cfg)
    (h : cacheNs ns cfg st la lo v now = .ok st2) :
    (probeNs ns cfg st2 la lo now).fst = some v := by
  have hlt : now < now + nsTTL ns cfg := lt_add_of_pos_right now httl
  cases ns
  · simp only [cacheNs, CacheManager.cache_current_weather, nsTTL] at h
    rw [store_put_pos _ _ _ _ _ (by simpa [nsTTL] using httl)] at h
    simp only [Except.ok.injEq] at h
    subst h
    simp only [probeNs, CacheManager.get_current_weather]
    rw [store_get_cons_self _ _ _ _ (by simpa [nsTTL] using hlt)]
  · simp only [cacheNs, CacheManager.cache_forecast_weather, nsTTL] at h
    rw [store_put_pos _ _ _ _ _ (by simpa [nsTTL] using httl)] at h
    simp only [Except.ok.injEq] at h
    subst h
    simp only [probeNs, CacheManager.get_forecast_weather]
    rw [store_get_cons_self _ _ _ _ (by simpa [nsTTL] using hlt)]

/-- A namespace probe leaves the other namespace's store and counters
untouched. -/
theorem probe_preserves_other {V : Type} (ns : Ns) (cfg : CacheConfig) (st : CacheState V)
    (la lo now : ℚ) :
    nsStoreOf (otherNs ns) ((probeNs ns cfg st la lo now).2) = nsStoreOf (otherNs ns) st ∧
    nsStatsOf (otherNs ns) ((probeNs ns cfg st la lo now).2) = nsStatsOf (otherNs ns) st := by
  cases ns
  · simp only [probeNs, otherNs, CacheManager.get_current_weather]
    rcases h : Store.get st.currentStore (quantizeKey cfg.COORD_PRECISION la lo) now with ⟨r, s2⟩
    cases r <;> simp [h, nsStoreOf, nsStatsOf]
  · simp only [probeNs, otherNs, CacheManager.get_forecast_weather]
    rcases h : Store.get st.forecastStore (quantizeKey cfg.COORD_PRECISION la lo) now with ⟨r, s2⟩
    cases r <;> simp [h, nsStoreOf, nsStatsOf]

/-- A successful namespace write leaves the other namespace's store and
counters untouched. -/
theorem cache_preserves_other {V : Type} (ns : Ns) (cfg : CacheConfig) (st st2 : CacheState V)
    (la lo : ℚ) (v : V) (now : ℚ)
    (h : cacheNs ns cfg st la lo v now = .ok st2) :
    nsStoreOf (otherNs ns) st2 = nsStoreOf (otherNs ns) st ∧
    nsStatsOf (otherNs ns) st2 = nsStatsOf (otherNs ns) st := by
  cases ns
  · simp only [cacheNs, CacheManager.cache_current_weather] at h
    rcases hput : Store.put st.currentStore (quantizeKey cfg.COORD_PRECISION la lo) v
        cfg.CURRENT_WEATHER_TTL now with e | s2
    · rw [hput] at h
      exact Except.noConfusion h
    · rw [hput] at h
      simp only [Except.ok.injEq] at h
      subst h
      simp [otherNs, nsStoreOf, nsStatsOf]
  · simp only [cacheNs, CacheManager.cache_forecast_weather] at h
    rcases hput : Store.put st.forecastStore (quantizeKey cfg.COORD_PRECISION la lo) v
        cfg.FORECAST_WEATHER_TTL now with e | s2
    · rw [hput] at h
      exact Except.noConfusion h
    · rw [hput] at h
      simp only [Except.ok.injEq] at h
      subst h
      simp [otherNs, nsStoreOf, nsStatsOf]

/-- The miss path only emits the probe, fetch and same-namespace store
events and never alters the other namespace. -/
theorem missPath_spec (cfg : CacheConfig) (fetch : Ns → Option Doc) (ns : Ns)
    (la lo : ℚ) (st1 : CacheState Doc) (now : ℚ) :
    ((missPath cfg fetch ns la lo st1 now).events = [WEvent.probe ns, WEvent.fetchCall] ∨
     (missPath cfg fetch ns la lo st1 now).events =
       [WEvent.probe ns, WEvent.fetchCall, WEvent.storeNs ns]) ∧
    nsStoreOf (otherNs ns) (missPath cfg fetch ns la lo st1 now).state =
      nsStoreOf (otherNs ns) st1 ∧
    nsStatsOf (otherNs ns) (missPath cfg fetch ns la lo st1 now).state =
      nsStatsOf (otherNs ns) st1 := by
  unfold missPath
  rcases hf : fetch ns with _ | d0
  · simp
  · cases ns
    · rcases hput : CacheManager.cache_current_weather cfg st1 la lo
          (setField d0 "cache_status" "miss") now with e | st2
      · simp [hput]
      · simp only [hput]
        have := cache_preserves_other Ns.current cfg st1 st2 la lo
          (setField d0 "cache_status" "miss") now (by simpa [cacheNs] using hput)
        simp [this.1, this.2]
    · rcases hput : CacheManager.cache_forecast_weather cfg st1 la lo
          (setField d0 "cache_status" "miss") now with e | st2
      · simp [hput]
      · simp only [hput]
        have := cache_preserves_other Ns.forecast cfg st1 st2 la lo
          (setField d0 "cache_status" "miss") now (by simpa [cacheNs] using hput)
        simp [this.1, this.2]

/-- The namespace-local part of claim C3 along the miss path: all events of
the miss path stay on the probed namespace, and the other namespace's state
is carried through unchanged. -/
theorem c3_missPath_full (cfg : CacheConfig) (fetch : Ns → Option Doc) (ns : Ns)
    (la lo : ℚ) (st1 st : CacheState Doc) (now : ℚ)
    (hS : nsStoreOf (otherNs ns) st1 = nsStoreOf (otherNs ns) st)
    (hT : nsStatsOf (otherNs ns) st1 = nsStatsOf (otherNs ns) st) :
    (∀ e ∈ (missPath cfg fetch ns la lo st1 now).events,
        e = WEvent.fetchCall ∨ e = WEvent.probe ns ∨ e = WEvent.storeNs ns) ∧
    nsStoreOf (otherNs ns) (missPath cfg fetch ns la lo st1 now).state =
      nsStoreOf (otherNs ns) st ∧
    nsStatsOf (otherNs ns) (missPath cfg fetch ns la lo st1 now).state =
      nsStatsOf (otherNs ns) st ∧
    ((missPath cfg fetch ns la lo st1 now).events = [] ∨
     WEvent.probe ns ∈ (missPath cfg fetch ns la lo st1 now).events) := by
  obtain ⟨hev, h1, h2⟩ := missPath_spec cfg fetch ns la lo st1 now
  refine ⟨?_, h1.trans hS, h2.trans hT, Or.inr ?_⟩
  · intro e he
    rcases hev with h | h <;> rw [h] at he <;> simp only [List.mem_cons, List.mem_singleton,
      List.not_mem_nil, or_false] at he <;> rcases he with he | he
    · simp [he]
    · simp [he]
    · simp [he]
    · rcases he with he | he <;> simp [he]
  · rcases hev with h | h <;> rw [h] <;> simp

/-- Rounding half to even is non-negative on non-negative input. -/
theorem pyRoundHalfEven_nonneg (x : ℚ) (hx : 0 ≤ x) : 0 ≤ pyRoundHalfEven x := by
  unfold pyRoundHalfEven
  have hf : (0 : ℤ) ≤ ⌊x⌋ := Int.floor_nonneg.mpr hx
  split
  · exact hf
  · split
    · omega
    · split
      · exact hf
      · omega

/-- Python rounding to decimal digits is non-negative on non-negative
input. -/
theorem pyRound_nonneg (x : ℚ) (n : ℕ) (hx : 0 ≤ x) : 0 ≤ pyRound x n := by
  unfold pyRound
  apply div_nonneg
  · exact_mod_cast pyRoundHalfEven_nonneg _ (by positivity)
  · positivity

/-- Claim C1, counterexample: the claim fails as stated when the cached
document is empty — the probe of the forecast namespace returns a document
(the empty one), yet the handler, whose truthiness test `if cached_data:`
treats an empty dictionary as a miss, performs the outbound fetch and does
not return the cached document marked as a hit. -/
theorem c1_counterexample :
    (probeNs (nsOf none) ⟨60, 3600, 2, 300⟩
        ⟨[], [((1000, 2000), ⟨[], 100⟩)], ⟨0, 0, 0⟩, ⟨0, 0, 0⟩⟩ 10 20 0).fst =
      some ([] : Doc) ∧
    WEvent.fetchCall ∈ (get_weather ⟨60, 3600, 2, 300⟩ (fun _ => some [("temperature", "20")])
        (some "10") (some "20") none
        ⟨[], [((1000, 2000), ⟨[], 100⟩)], ⟨0, 0, 0⟩, ⟨0, 0, 0⟩⟩ 0).events ∧
    (get_weather ⟨60, 3600, 2, 300⟩ (fun _ => some [("temperature", "20")])
        (some "10") (some "20") none
        ⟨[], [((1000, 2000), ⟨[], 100⟩)], ⟨0, 0, 0⟩, ⟨0, 0, 0⟩⟩ 0).body ≠
      WBody.doc (setField [] "cache_status" "hit_forecast") := by
  refine ⟨by with_unfolding_all rfl, by with_unfolding_all decide, by with_unfolding_all decide⟩

/-- Claim C1 (amended: the cached document must be non-empty, because the
handler's `if cached_data:` check treats an empty dictionary as a miss):
for every GET /weather request with valid in-range coordinates, when the
probe of the cache namespace selected by the forecast parameter returns a
non-empty document, the handler returns that cached document with HTTP
status 200 and performs no outbound fetch; the returned document is the
cached one with its cache_status field set to the namespace's hit label. -/
theorem c1_hit_returns_cached (cfg : CacheConfig) (fetch : Ns → Option Doc)
    (slat slon : String) (fp : Option String) (st : CacheState Doc) (now la lo : ℚ) (d : Doc)
    (hpla : parseFloat slat = some la) (hplo : parseFloat slon = some lo)
    (hra1 : -90 ≤ la) (hra2 : la ≤ 90) (hrb1 : -180 ≤ lo) (hrb2 : lo ≤ 180)
    (hprobe : (probeNs (nsOf fp) cfg st la lo now).fst = some d)
    (hd : d.isEmpty = false) :
    (get_weather cfg fetch (some slat) (some slon) fp st now).status = 200 ∧
    (get_weather cfg fetch (some slat) (some slon) fp st now).body =
      WBody.doc (setField d "cache_status" (hitLabel (nsOf fp))) ∧
    (get_weather cfg fetch (some slat) (some slon) fp st now).events =
      [WEvent.probe (nsOf fp)] ∧
    WEvent.fetchCall ∉ (get_weather cfg fetch (some slat) (some slon) fp st now).events := by
  have hne1 : slat ≠ "" := by
    intro h
    rw [h, parseFloat_empty] at hpla
    exact Option.noConfusion hpla
  have hne2 : slon ≠ "" := by
    intro h
    rw [h, parseFloat_empty] at hplo
    exact Option.noConfusion hplo
  unfold get_weather
  rw [if_neg (by simp [hne1, hne2])]
  simp only [Option.getD_some, hpla, hplo]
  rw [if_neg (by push_neg; exact ⟨⟨hra1, hra2⟩, ⟨hrb1, hrb2⟩⟩)]
  cases hF : isForecast fp
  · simp only [nsOf, hF, Bool.false_eq_true, if_false, probeNs] at hprobe ⊢
    rcases hEq : CacheManager.get_current_weather cfg st la lo now with ⟨r, st1⟩
    rw [hEq] at hprobe
    simp only at hprobe
    subst hprobe
    simp [hd, hitLabel]
  · simp only [nsOf, hF, if_true, probeNs] at hprobe ⊢
    rcases hEq : CacheManager.get_forecast_weather cfg st la lo now with ⟨r, st1⟩
    rw [hEq] at hprobe
    simp only at hprobe
    subst hprobe
    simp [hd, hitLabel]

/-- Witness for claim C1 at a concrete request: coordinates (10, 20), a
non-empty cached forecast document, and an immediate hit. -/
theorem c1_hit_returns_cached_witness :
    parseFloat "10" = some 10 ∧ parseFloat "20" = some 20 ∧
    ((-90 : ℚ) ≤ 10 ∧ (10 : ℚ) ≤ 90 ∧ (-180 : ℚ) ≤ 20 ∧ (20 : ℚ) ≤ 180) ∧
    (probeNs (nsOf none) ⟨60, 3600, 2, 300⟩
        ⟨[], [((1000, 2000), ⟨[("temperature", "20")], 100⟩)], ⟨0, 0, 0⟩, ⟨0, 0, 0⟩⟩
        10 20 0).fst = some [("temperature", "20")] ∧
    ([("temperature", "20")] : Doc).isEmpty = false ∧
    ((get_weather ⟨60, 3600, 2, 300⟩ (fun _ => none) (some "10") (some "20") none
        ⟨[], [((1000, 2000), ⟨[("temperature", "20")], 100⟩)], ⟨0, 0, 0⟩, ⟨0, 0, 0⟩⟩ 0).status = 200 ∧
     (get_weather ⟨60, 3600, 2, 300⟩ (fun _ => none) (some "10") (some "20") none
        ⟨[], [((1000, 2000), ⟨[("temperature", "20")], 100⟩)], ⟨0, 0, 0⟩, ⟨0, 0, 0⟩⟩ 0).body =
       WBody.doc (setField [("temperature", "20")] "cache_status" (hitLabel (nsOf none))) ∧
     (get_weather ⟨60, 3600, 2, 300⟩ (fun _ => none) (some "10") (some "20") none
        ⟨[], [((1000, 2000), ⟨[("temperature", "20")], 100⟩)], ⟨0, 0, 0⟩, ⟨0, 0, 0⟩⟩ 0).events =
       [WEvent.probe (nsOf none)] ∧
     WEvent.fetchCall ∉ (get_weather ⟨60, 3600, 2, 300⟩ (fun _ => none) (some "10") (some "20") none
        ⟨[], [((1000, 2000), ⟨[("temperature", "20")], 100⟩)], ⟨0, 0, 0⟩, ⟨0, 0, 0⟩⟩ 0).events) :=
  ⟨by with_unfolding_all rfl, by with_unfolding_all rfl,
   ⟨by norm_num, by norm_num, by norm_num, by norm_num⟩,
   by with_unfolding_all rfl, rfl,
   c1_hit_returns_cached ⟨60, 3600, 2, 300⟩ (fun _ => none) "10" "20" none
     ⟨[], [((1000, 2000), ⟨[("temperature", "20")], 100⟩)], ⟨0, 0, 0⟩, ⟨0, 0, 0⟩⟩ 0 10 20
     [("temperature", "20")]
     (by with_unfolding_all rfl) (by with_unfolding_all rfl)
     (by norm_num) (by norm_num) (by norm_num) (by norm_num)
     (by with_unfolding_all rfl) rfl⟩

/-- Claim C2: a cache miss is not an error — for every GET /weather request
with valid coordinates whose probe returns absent, the handler fetches
fresh data from the provider (the fetch happens in the endpoint handler,
never in the cache), stores the assembled result into the same namespace it
probed, and returns it with HTTP status 200 and cache_status "miss". -/
theorem c2_miss_fetches_and_stores (cfg : CacheConfig) (fetch : Ns → Option Doc)
    (slat slon : String) (fp : Option String) (st : CacheState Doc) (now la lo : ℚ) (d0 : Doc)
    (hpla : parseFloat slat = some la) (hplo : parseFloat slon = some lo)
    (hra1 : -90 ≤ la) (hra2 : la ≤ 90) (hrb1 : -180 ≤ lo) (hrb2 : lo ≤ 180)
    (hprobe : (probeNs (nsOf fp) cfg st la lo now).fst = none)
    (hfetch : fetch (nsOf fp) = some d0)
    (httl : 0 < nsTTL (nsOf fp) cfg) :
    (get_weather cfg fetch (some slat) (some slon) fp st now).status = 200 ∧
    (get_weather cfg fetch (some slat) (some slon) fp st now).body =
      WBody.doc (setField d0 "cache_status" "miss") ∧
    (get_weather cfg fetch (some slat) (some slon) fp st now).events =
      [WEvent.probe (nsOf fp), WEvent.fetchCall, WEvent.storeNs (nsOf fp)] ∧
    (probeNs (nsOf fp) cfg (get_weather cfg fetch (some slat) (some slon) fp st now).state
        la lo now).fst = some (setField d0 "cache_status" "miss") := by
  have hne1 : slat ≠ "" := by
    intro h
    rw [h, parseFloat_empty] at hpla
    exact Option.noConfusion hpla
  have hne2 : slon ≠ "" := by
    intro h
    rw [h, parseFloat_empty] at hplo
    exact Option.noConfusion hplo
  unfold get_weather
  rw [if_neg (by simp [hne1, hne2])]
  simp only [Option.getD_some, hpla, hplo]
  rw [if_neg (by push_neg; exact ⟨⟨hra1, hra2⟩, ⟨hrb1, hrb2⟩⟩)]
  cases hF : isForecast fp
  · simp only [nsOf, hF, Bool.false_eq_true, if_false, probeNs] at hprobe hfetch httl ⊢
    rcases hEq : CacheManager.get_current_weather cfg st la lo now with ⟨r, st1⟩
    rw [hEq] at hprobe
    simp only at hprobe
    subst hprobe
    unfold missPath
    rw [hfetch]
    rcases hPut : CacheManager.cache_current_weather cfg st1 la lo
        (setField d0 "cache_status" "miss") now with st2 | e
    · exfalso
      simp only [CacheManager.cache_current_weather] at hPut
      rw [store_put_pos _ _ _ _ _ (by simpa [nsTTL] using httl)] at hPut
      exact Except.noConfusion hPut
    · simp only [hPut]
      refine ⟨trivial, trivial, trivial, ?_⟩
      exact probe_after_cache Ns.current cfg st1 la lo _ now e httl
        (by simpa [cacheNs] using hPut)
  · simp only [nsOf, hF, if_true, probeNs] at hprobe hfetch httl ⊢
    rcases hEq : CacheManager.get_forecast_weather cfg st la lo now with ⟨r, st1⟩
    rw [hEq] at hprobe
    simp only at hprobe
    subst hprobe
    unfold missPath
    rw [hfetch]
    rcases hPut : CacheManager.cache_forecast_weather cfg st1 la lo
        (setField d0 "cache_status" "miss") now with st2 | e
    · exfalso
      simp only [CacheManager.cache_forecast_weather] at hPut
      rw [store_put_pos _ _ _ _ _ (by simpa [nsTTL] using httl)] at hPut
      exact Except.noConfusion hPut
    · simp only [hPut]
      refine ⟨trivial, trivial, trivial, ?_⟩
      exact probe_after_cache Ns.forecast cfg st1 la lo _ now e httl
        (by simpa [cacheNs] using hPut)

/-- Witness for claim C2 at a concrete request: coordinates (10, 20), an
empty cache, a provider that returns one document, and a miss. -/
theorem c2_miss_fetches_and_stores_witness :
    parseFloat "10" = some 10 ∧ parseFloat "20" = some 20 ∧
    (probeNs (nsOf none) ⟨60, 3600, 2, 300⟩ (⟨[], [], ⟨0, 0, 0⟩, ⟨0, 0, 0⟩⟩ : CacheState Doc) 10 20 0).fst = none ∧
    (fun (_ : Ns) => some [("temperature", "21")]) (nsOf none) = some [("temperature", "21")] ∧
    (0 : ℚ) < nsTTL (nsOf none) ⟨60, 3600, 2, 300⟩ ∧
    ((get_weather ⟨60, 3600, 2, 300⟩ (fun _ => some [("temperature", "21")])
        (some "10") (some "20") none ⟨[], [], ⟨0, 0, 0⟩, ⟨0, 0, 0⟩⟩ 0).status = 200 ∧
     (get_weather ⟨60, 3600, 2, 300⟩ (fun _ => some [("temperature", "21")])
        (some "10") (some "20") none ⟨[], [], ⟨0, 0, 0⟩, ⟨0, 0, 0⟩⟩ 0).body =
       WBody.doc (setField [("temperature", "21")] "cache_status" "miss") ∧
     (get_weather ⟨60, 3600, 2, 300⟩ (fun _ => some [("temperature", "21")])
        (some "10") (some "20") none ⟨[], [], ⟨0, 0, 0⟩, ⟨0, 0, 0⟩⟩ 0).events =
       [WEvent.probe (nsOf none), WEvent.fetchCall, WEvent.storeNs (nsOf none)] ∧
     (probeNs (nsOf none) ⟨60, 3600, 2, 300⟩
        (get_weather ⟨60, 3600, 2, 300⟩ (fun _ => some [("temperature", "21")])
          (some "10") (some "20") none ⟨[], [], ⟨0, 0, 0⟩, ⟨0, 0, 0⟩⟩ 0).state 10 20 0).fst =
       some (setField [("temperature", "21")] "cache_status" "miss")) :=
  ⟨by with_unfolding_all rfl, by with_unfolding_all rfl, by with_unfolding_all rfl, rfl,
   by with_unfolding_all decide,
   c2_miss_fetches_and_stores ⟨60, 3600, 2, 300⟩ (fun _ => some [("temperature", "21")])
     "10" "20" none ⟨[], [], ⟨0, 0, 0⟩, ⟨0, 0, 0⟩⟩ 0 10 20 [("temperature", "21")]
     (by with_unfolding_all rfl) (by with_unfolding_all rfl)
     (by norm_num) (by norm_num) (by norm_num) (by norm_num)
     (by with_unfolding_all rfl) rfl (by with_unfolding_all decide)⟩

/-- Claim C3: namespace independence at the endpoint — every cache event of
a GET /weather request concerns only the namespace selected by the
forecast parameter (forecast requests only call the forecast getter and
setter, current requests only the current ones), the other namespace's
store and counters are never modified, and whenever any cache activity
happens at all the selected namespace is the one probed; hence a write to
one namespace never satisfies a read against the other. -/
theorem c3_namespace_isolation (cfg : CacheConfig) (fetch : Ns → Option Doc)
    (lat lon fp : Option String) (st : CacheState Doc) (now : ℚ) :
    (∀ e ∈ (get_weather cfg fetch lat lon fp st now).events,
        e = WEvent.fetchCall ∨ e = WEvent.probe (nsOf fp) ∨ e = WEvent.storeNs (nsOf fp)) ∧
    nsStoreOf (otherNs (nsOf fp)) (get_weather cfg fetch lat lon fp st now).state =
      nsStoreOf (otherNs (nsOf fp)) st ∧
    nsStatsOf (otherNs (nsOf fp)) (get_weather cfg fetch lat lon fp st now).state =
      nsStatsOf (otherNs (nsOf fp)) st ∧
    ((get_weather cfg fetch lat lon fp st now).events = [] ∨
     WEvent.probe (nsOf fp) ∈ (get_weather cfg fetch lat lon fp st now).events) := by
  unfold get_weather
  split
  · simp
  · split
    · rename_i la lo hpla hplo
      split
      · simp
      · split
        next hF =>
          have hns : nsOf fp = Ns.forecast := by simp [nsOf, hF]
          rw [hns]
          split
          next d st1 hEq =>
            have hpres := probe_preserves_other Ns.forecast cfg st la lo now
            rw [show (probeNs Ns.forecast cfg st la lo now).2 = st1 by
              simp [probeNs, hEq]] at hpres
            split
            · exact c3_missPath_full cfg fetch Ns.forecast la lo st1 st now hpres.1 hpres.2
            · refine ⟨?_, hpres.1, hpres.2, Or.inr (by simp)⟩
              intro e he
              simp only [List.mem_singleton] at he
              simp [he]
          next st1 hEq =>
            have hpres := probe_preserves_other Ns.forecast cfg st la lo now
            rw [show (probeNs Ns.forecast cfg st la lo now).2 = st1 by
              simp [probeNs, hEq]] at hpres
            exact c3_missPath_full cfg fetch Ns.forecast la lo st1 st now hpres.1 hpres.2
        next hF =>
          have hns : nsOf fp = Ns.current := by simp [nsOf, hF]
          rw [hns]
          split
          next d st1 hEq =>
            have hpres := probe_preserves_other Ns.current cfg st la lo now
            rw [show (probeNs Ns.current cfg st la lo now).2 = st1 by
              simp [probeNs, hEq]] at hpres
            split
            · exact c3_missPath_full cfg fetch Ns.current la lo st1 st now hpres.1 hpres.2
            · refine ⟨?_, hpres.1, hpres.2, Or.inr (by simp)⟩
              intro e he
              simp only [List.mem_singleton] at he
              simp [he]
          next st1 hEq =>
            have hpres := probe_preserves_other Ns.current cfg st la lo now
            rw [show (probeNs Ns.current cfg st la lo now).2 = st1 by
              simp [probeNs, hEq]] at hpres
            exact c3_missPath_full cfg fetch Ns.current la lo st1 st now hpres.1 hpres.2
    · simp

/-- Claim C4: upstream coordinate validation — for every GET /weather
request whose lat or lon is present but fails to parse as a float, or
parses outside the valid latitude/longitude ranges, the handler returns
HTTP status 400 with an error message, touches no cache namespace and
performs no outbound fetch, leaving the cache state unchanged. -/
theorem c4_invalid_coords_rejected (cfg : CacheConfig) (fetch : Ns → Option Doc)
    (slat slon : String) (fp : Option String) (st : CacheState Doc) (now : ℚ)
    (h1 : slat ≠ "") (h2 : slon ≠ "")
    (hcv : coordsValid slat slon = false) :
    (get_weather cfg fetch (some slat) (some slon) fp st now).status = 400 ∧
    (∃ m, (get_weather cfg fetch (some slat) (some slon) fp st now).body = WBody.err m) ∧
    (get_weather cfg fetch (some slat) (some slon) fp st now).events = [] ∧
    (get_weather cfg fetch (some slat) (some slon) fp st now).state = st := by
  unfold get_weather
  rw [if_neg (by simp [h1, h2])]
  unfold coordsValid at hcv
  simp only [Option.getD_some]
  rcases hp : parseFloat slat with _ | x
  · rw [hp] at hcv
    simp only [hp]
    simp
  · rcases hq : parseFloat slon with _ | y
    · rw [hp, hq] at hcv
      simp only [hp, hq]
      simp
    · rw [hp, hq] at hcv
      simp only [hp, hq]
      rw [if_pos (not_and_or.mp (of_decide_eq_false hcv))]
      simp

/-- Witness for claim C4 at a concrete request: latitude "91" parses but is
out of range, so the request is rejected with 400 and no cache activity. -/
theorem c4_invalid_coords_rejected_witness :
    "91" ≠ "" ∧ "0" ≠ "" ∧ coordsValid "91" "0" = false ∧
    ((get_weather ⟨60, 3600, 2, 300⟩ (fun _ => none) (some "91") (some "0") none
        ⟨[], [], ⟨0, 0, 0⟩, ⟨0, 0, 0⟩⟩ 0).status = 400 ∧
     (∃ m, (get_weather ⟨60, 3600, 2, 300⟩ (fun _ => none) (some "91") (some "0") none
        ⟨[], [], ⟨0, 0, 0⟩, ⟨0, 0, 0⟩⟩ 0).body = WBody.err m) ∧
     (get_weather ⟨60, 3600, 2, 300⟩ (fun _ => none) (some "91") (some "0") none
        ⟨[], [], ⟨0, 0, 0⟩, ⟨0, 0, 0⟩⟩ 0).events = [] ∧
     (get_weather ⟨60, 3600, 2, 300⟩ (fun _ => none) (some "91") (some "0") none
        ⟨[], [], ⟨0, 0, 0⟩, ⟨0, 0, 0⟩⟩ 0).state = ⟨[], [], ⟨0, 0, 0⟩, ⟨0, 0, 0⟩⟩) :=
  ⟨by decide, by decide, by with_unfolding_all rfl,
   c4_invalid_coords_rejected ⟨60, 3600, 2, 300⟩ (fun _ => none) "91" "0" none
     ⟨[], [], ⟨0, 0, 0⟩, ⟨0, 0, 0⟩⟩ 0 (by decide) (by decide) (by with_unfolding_all rfl)⟩

/-- Claim C5: cache round trip — for all valid coordinates, any document
and a positive namespace TTL, a put into a namespace followed immediately
(no elapsed time) by a get on the same namespace and coordinates returns
exactly the stored document. -/
theorem c5_roundtrip (ns : Ns) (cfg : CacheConfig) (st : CacheState Doc)
    (lat lon : ℚ) (d : Doc) (now : ℚ) (st2 : CacheState Doc)
    (_hlat1 : -90 ≤ lat) (_hlat2 : lat ≤ 90) (_hlon1 : -180 ≤ lon) (_hlon2 : lon ≤ 180)
    (httl : 0 < nsTTL ns cfg)
    (hput : cacheNs ns cfg st lat lon d now = .ok st2) :
    (probeNs ns cfg st2 lat lon now).fst = some d :=
  probe_after_cache ns cfg st lat lon d now st2 httl hput

/-- Witness for claim C5 at a concrete put-then-get on the forecast
namespace at coordinates (10, 20) with TTL 3600. -/
theorem c5_roundtrip_witness :
    ((-90 : ℚ) ≤ 10 ∧ (10 : ℚ) ≤ 90 ∧ (-180 : ℚ) ≤ 20 ∧ (20 : ℚ) ≤ 180) ∧
    (0 : ℚ) < nsTTL Ns.forecast ⟨60, 3600, 2, 300⟩ ∧
    cacheNs Ns.forecast ⟨60, 3600, 2, 300⟩ (⟨[], [], ⟨0, 0, 0⟩, ⟨0, 0, 0⟩⟩ : CacheState Doc)
      10 20 [("temperature", "20")] 0 =
      .ok ⟨[], [((1000, 2000), ⟨[("temperature", "20")], 3600⟩)], ⟨0, 0, 0⟩, ⟨0, 0, 0⟩⟩ ∧
    (probeNs Ns.forecast ⟨60, 3600, 2, 300⟩
        (⟨[], [((1000, 2000), ⟨[("temperature", "20")], 3600⟩)], ⟨0, 0, 0⟩, ⟨0, 0, 0⟩⟩ :
          CacheState Doc) 10 20 0).fst = some [("temperature", "20")] :=
  ⟨⟨by norm_num, by norm_num, by norm_num, by norm_num⟩,
   by with_unfolding_all decide, by with_unfolding_all rfl,
   c5_roundtrip Ns.forecast ⟨60, 3600, 2, 300⟩ ⟨[], [], ⟨0, 0, 0⟩, ⟨0, 0, 0⟩⟩ 10 20
     [("temperature", "20")] 0
     ⟨[], [((1000, 2000), ⟨[("temperature", "20")], 3600⟩)], ⟨0, 0, 0⟩, ⟨0, 0, 0⟩⟩
     (by norm_num) (by norm_num) (by norm_num) (by norm_num)
     (by with_unfolding_all decide) (by with_unfolding_all rfl)⟩

/-- Claim C6: expiry invariant — an entry written with TTL `T` at time `t`
is returned by a get at `t + Δ` exactly when `Δ < T` (absent once the clock
has advanced to at least `T` past the write, the value for any lesser
elapsed time), and in general a get only ever returns an entry's value
when `now` is strictly below that entry's `expires_at` at the moment of
the read. -/
theorem c6_expiry (s : Store Doc) (k : ℤ × ℤ) (v : Doc) (t T Δ : ℚ)
    (hT : 0 < T) (s2 : Store Doc)
    (hput : Store.put s k v T t = .ok s2) :
    ((Store.get s2 k (t + Δ)).fst = if Δ < T then some v else none) ∧
    (∀ (s0 : Store Doc) (now : ℚ) (w : Doc), (Store.get s0 k now).fst = some w →
      ∃ e, findEntry k s0 = some e ∧ e.value = w ∧ now < e.expiresAt) := by
  constructor
  · rw [store_put_pos _ _ _ _ _ hT] at hput
    simp only [Except.ok.injEq] at hput
    subst hput
    unfold Store.get findEntry
    rw [if_pos rfl]
    by_cases hΔ : Δ < T
    · rw [if_pos hΔ]
      simp [add_lt_add_iff_left, hΔ]
    · rw [if_neg hΔ]
      simp [add_lt_add_iff_left, hΔ]
  · intro s0 now w hget
    unfold Store.get at hget
    rcases hfe : findEntry k s0 with _ | e
    · rw [hfe] at hget
      exact Option.noConfusion hget
    · rw [hfe] at hget
      by_cases hlt : now < e.expiresAt
      · simp only [hlt, if_true] at hget
        exact ⟨e, rfl, by simpa using hget, hlt⟩
      · simp [hlt] at hget

/-- Witness for claim C6: an entry written at time 0 with TTL 5 is absent
at elapsed time 7. -/
theorem c6_expiry_witness :
    (0 : ℚ) < 5 ∧
    Store.put ([] : Store Doc) (0, 0) [("a", "b")] 5 0 = .ok [((0, 0), ⟨[("a", "b")], 5⟩)] ∧
    ((Store.get [((0, 0), ⟨[("a", "b")], 5⟩)] (0, 0) (0 + 7)).fst =
      if (7 : ℚ) < 5 then some [("a", "b")] else none) ∧
    (∀ (s0 : Store Doc) (now : ℚ) (w : Doc), (Store.get s0 (0, 0) now).fst = some w →
      ∃ e, findEntry (0, 0) s0 = some e ∧ e.value = w ∧ now < e.expiresAt) :=
  ⟨by norm_num, by with_unfolding_all rfl,
   (c6_expiry [] (0, 0) [("a", "b")] 0 5 7 (by norm_num) [((0, 0), ⟨[("a", "b")], 5⟩)]
     (by with_unfolding_all rfl)).1,
   (c6_expiry [] (0, 0) [("a", "b")] 0 5 7 (by norm_num) [((0, 0), ⟨[("a", "b")], 5⟩)]
     (by with_unfolding_all rfl)).2⟩

/-- Claim C7: the GET /weather/cache/stats handler returns HTTP status 200
with the cache's stats snapshot under cache_stats and a config object
exposing exactly the four configuration constants under the keys
current_weather_ttl_seconds, forecast_weather_ttl_seconds,
coordinate_precision and cleanup_interval_seconds. -/
theorem c7_stats_endpoint (cfg : CacheConfig) (st : CacheState Doc) :
    (get_weather_cache_stats cfg st).1 = 200 ∧
    (get_weather_cache_stats cfg st).2.cache_stats = CacheManager.get_stats st ∧
    (get_weather_cache_stats cfg st).2.config.map Prod.fst =
      ["current_weather_ttl_seconds", "forecast_weather_ttl_seconds",
       "coordinate_precision", "cleanup_interval_seconds"] ∧
    ("current_weather_ttl_seconds", cfg.CURRENT_WEATHER_TTL) ∈
      (get_weather_cache_stats cfg st).2.config ∧
    ("forecast_weather_ttl_seconds", cfg.FORECAST_WEATHER_TTL) ∈
      (get_weather_cache_stats cfg st).2.config ∧
    ("coordinate_precision", (cfg.COORD_PRECISION : ℚ)) ∈
      (get_weather_cache_stats cfg st).2.config ∧
    ("cleanup_interval_seconds", cfg.CLEANUP_INTERVAL) ∈
      (get_weather_cache_stats cfg st).2.config := by
  refine ⟨rfl, rfl, rfl, ?_, ?_, ?_, ?_⟩ <;> simp [get_weather_cache_stats]

/-- Claim C8: for every GET /weather request in which lat or lon is absent
or the empty string, the handler returns HTTP status 400 with the
missing-parameters error message before any coordinate parsing, cache
access or network call — the cache state is unchanged and the event trace
is empty. -/
theorem c8_missing_params (cfg : CacheConfig) (fetch : Ns → Option Doc)
    (lat lon fp : Option String) (st : CacheState Doc) (now : ℚ)
    (h : lat = none ∨ lat = some "" ∨ lon = none ∨ lon = some "") :
    get_weather cfg fetch lat lon fp st now =
      ⟨400, .err "Missing required parameters: lat and lon must be provided", st, []⟩ := by
  unfold get_weather
  rw [if_pos h]

/-- Witness for claim C8 at a concrete request with lat absent. -/
theorem c8_missing_params_witness :
    ((none : Option String) = none ∨ (none : Option String) = some "" ∨
      (some "20" : Option String) = none ∨ (some "20" : Option String) = some "") ∧
    get_weather ⟨60, 3600, 2, 300⟩ (fun _ => none) none (some "20") none
        ⟨[], [], ⟨0, 0, 0⟩, ⟨0, 0, 0⟩⟩ 0 =
      ⟨400, .err "Missing required parameters: lat and lon must be provided",
        ⟨[], [], ⟨0, 0, 0⟩, ⟨0, 0, 0⟩⟩, []⟩ :=
  ⟨Or.inl rfl,
   c8_missing_params ⟨60, 3600, 2, 300⟩ (fun _ => none) none (some "20") none
     ⟨[], [], ⟨0, 0, 0⟩, ⟨0, 0, 0⟩⟩ 0 (Or.inl rfl)⟩

/-- Claim C9: every successful POST /predict response carries a
non-negative predicted_total_weather_delay_hrs — the raw model output is
clamped through max 0 before rounding, so no 200 response reports a
negative delay. -/
theorem c9_nonneg_delay (env : PredictEnv) (isJson : Bool) (fields : List String)
    (model_name : String)
    (h : (predict env isJson fields model_name).status = 200) :
    ∃ m d, (predict env isJson fields model_name).body = PBody.ok m d ∧ 0 ≤ d := by
  unfold predict at h ⊢
  by_cases h1 : (!isJson) = true
  · simp only [h1, if_true] at h
    exact absurd h (by norm_num)
  · rw [Bool.not_eq_true] at h1
    simp only [h1, Bool.false_eq_true, if_false] at h ⊢
    by_cases h2 : (!required_fields.all (fields.contains ·)) = true
    · simp only [h2, if_true] at h
      exact absurd h (by norm_num)
    · rw [Bool.not_eq_true] at h2
      simp only [h2, Bool.false_eq_true, if_false] at h ⊢
      by_cases h3 : (!env.keras_models.contains model_name
          && !env.models.contains model_name) = true
      · simp only [h3, if_true] at h
        exact absurd h (by norm_num)
      · rw [Bool.not_eq_true] at h3
        simp only [h3, Bool.false_eq_true, if_false] at h ⊢
        rcases hrm : env.runModel model_name with e | raw
        · rcases e with m | m <;> simp only [hrm] at h <;> exact absurd h (by norm_num)
        · simp only [hrm]
          exact ⟨model_name, _, rfl, pyRound_nonneg _ _ (le_max_left 0 raw)⟩

/-- Witness for claim C9 at a concrete request whose model returns the raw
prediction -2: the 200 response reports a clamped, non-negative delay. -/
theorem c9_nonneg_delay_witness :
    (predict ⟨["Random Forest"], ["MLP"], fun _ => Except.ok (-2)⟩ true required_fields
        "Random Forest").status = 200 ∧
    ∃ m d, (predict ⟨["Random Forest"], ["MLP"], fun _ => Except.ok (-2)⟩ true required_fields
        "Random Forest").body = PBody.ok m d ∧ 0 ≤ d :=
  ⟨by with_unfolding_all rfl,
   c9_nonneg_delay ⟨["Random Forest"], ["MLP"], fun _ => Except.ok (-2)⟩ true required_fields
     "Random Forest" (by with_unfolding_all rfl)⟩

/-- Claim C10: for every POST /predict request whose JSON body contains all
required fields but whose model name is in neither the sklearn nor the
Keras model dictionary, the handler returns HTTP status 404 with an error
message listing the available models, and performs no feature preparation
or prediction (empty event trace). -/
theorem c10_model_not_found (env : PredictEnv) (fields : List String) (model_name : String)
    (hf : required_fields.all (fields.contains ·) = true)
    (hk : env.keras_models.contains model_name = false)
    (hs : env.models.contains model_name = false) :
    predict env true fields model_name =
      ⟨404, .err ("Model \x27" ++ model_name ++ "\x27 not found. Available: "
                  ++ pyListRepr (env.models ++ env.keras_models)), []⟩ := by
  unfold predict
  rw [if_neg (by simp)]
  rw [if_neg (show ¬(!required_fields.all (fields.contains ·)) = true by rw [hf]; simp)]
  rw [if_pos (show (!env.keras_models.contains model_name
      && !env.models.contains model_name) = true by rw [hk, hs]; rfl)]

/-- Witness for claim C10 at a concrete request naming an unknown model. -/
theorem c10_model_not_found_witness :
    required_fields.all (required_fields.contains ·) = true ∧
    (["MLP"] : List String).contains "Bogus" = false ∧
    (["Random Forest"] : List String).contains "Bogus" = false ∧
    predict ⟨["Random Forest"], ["MLP"], fun _ => Except.ok 0⟩ true required_fields "Bogus" =
      ⟨404, .err ("Model \x27" ++ "Bogus" ++ "\x27 not found. Available: "
                  ++ pyListRepr (["Random Forest"] ++ ["MLP"])), []⟩ :=
  ⟨by decide, by decide, by decide,
   c10_model_not_found ⟨["Random Forest"], ["MLP"], fun _ => Except.ok 0⟩ required_fields
     "Bogus" (by decide) (by decide) (by decide)⟩
